import Mathlib

/-!
Verification of the batched-analysis-and-consolidation pipeline of `app.py`
(India-US news trend finder).

The Python source is embedded shallowly:

* JSON values returned by `json.loads` become the inductive type `Json`;
  Python truthiness, `in`, subscripting, `dict.get`, `str.join`, `str`/`repr`
  and iteration are modelled by `pyTruthy`, `pyContainsKey`, `pySubscript`,
  `pyGet`, `pyJoin`, `pyStr`/`pyRepr` and `pyIter`.  Operations that can raise
  a `TypeError`/`KeyError` in Python return `Except String _`.
* The external LLM service is an oracle: for `call_groq_api` the oracle gives
  the outcome of each attempt (`Nat → AttemptResult`); for the two pipeline
  stages the oracle gives the final result of each gateway call
  (`Nat → Option Json` per batch, `Option Json` for consolidation), `none`
  standing for the Failure (`None`) outcome after exhausted retries.
* `time.sleep` is modelled by recording the slept durations in a trace.
* The Flask boundary `get_trends` / `get_articles` becomes a pure function of
  the query parameters (`String → Option Int`), the article source
  (`Int → List Article`) and the gateway oracles, returning the HTTP status,
  the JSON body, and a trace of the values threaded into the pipeline.
-/

namespace Mojo

/-- JSON values as produced by `json.loads`. Objects are association lists in
insertion order; for duplicate keys the last entry wins (as in `json.loads`). -/
inductive Json where
  | null
  | bool (b : Bool)
  | num (n : Int)
  | str (s : String)
  | arr (xs : List Json)
  | obj (kvs : List (String × Json))

/-- Lower-casing of a string, character by character (`str.lower` on ASCII). -/
def lowerStr (s : String) : String := String.mk (s.toList.map Char.toLower)

/-- Containment of `pat` as a contiguous sublist. -/
def listHasSub (pat : List Char) : List Char → Bool
  | [] => pat.isEmpty
  | c :: rest => pat.isPrefixOf (c :: rest) || listHasSub pat rest

/-- Python `pat in s` on strings. -/
def strContainsSub (s pat : String) : Bool := listHasSub pat.toList s.toList

/-- Python truthiness of a JSON value. -/
def pyTruthy : Json → Bool
  | .null => false
  | .bool b => b
  | .num n => n != 0
  | .str s => !s.isEmpty
  | .arr xs => !xs.isEmpty
  | .obj kvs => !kvs.isEmpty

/-- Python `x == key` membership scan of a list for a string `key`. -/
def jsonListHasStr (key : String) : List Json → Bool
  | [] => false
  | .str s :: rest => s == key || jsonListHasStr key rest
  | _ :: rest => jsonListHasStr key rest

/-- Python `key in j` for a string `key`: key membership on dicts, element
membership on lists, substring on strings, `TypeError` otherwise. -/
def pyContainsKey (j : Json) (key : String) : Except String Bool :=
  match j with
  | .obj kvs => .ok ((kvs.reverse).lookup key).isSome
  | .arr xs => .ok (jsonListHasStr key xs)
  | .str s => .ok (strContainsSub s key)
  | .null => .error "TypeError: argument of type \x27NoneType\x27 is not iterable"
  | .bool _ => .error "TypeError: argument of type \x27bool\x27 is not iterable"
  | .num _ => .error "TypeError: argument of type \x27int\x27 is not iterable"

/-- Python `j[key]` for a string `key`. -/
def pySubscript (j : Json) (key : String) : Except String Json :=
  match j with
  | .obj kvs =>
    match (kvs.reverse).lookup key with
    | some v => .ok v
    | none => .error ("KeyError: \x27" ++ key ++ "\x27")
  | .arr _ => .error "TypeError: list indices must be integers or slices, not str"
  | .str _ => .error "TypeError: string indices must be integers"
  | .null => .error "TypeError: \x27NoneType\x27 object is not subscriptable"
  | .bool _ => .error "TypeError: \x27bool\x27 object is not subscriptable"
  | .num _ => .error "TypeError: \x27int\x27 object is not subscriptable"

/-- Python `kvs.get key dflt` on a dict (last entry wins for duplicate keys). -/
def pyGet (kvs : List (String × Json)) (key : String) (dflt : Json) : Json :=
  ((kvs.reverse).lookup key).getD dflt

mutual

/-- Python `repr` of a JSON value (string escaping inside `repr` is elided). -/
def pyRepr : Json → String
  | .null => "None"
  | .bool true => "True"
  | .bool false => "False"
  | .num n => toString n
  | .str s => "\x27" ++ s ++ "\x27"
  | .arr xs => "[" ++ pyReprList xs ++ "]"
  | .obj kvs => "\x7b" ++ pyReprObj kvs ++ "\x7d"

/-- Comma-separated `repr`s of the elements of a list. -/
def pyReprList : List Json → String
  | [] => ""
  | [x] => pyRepr x
  | x :: y :: rest => pyRepr x ++ ", " ++ pyReprList (y :: rest)

/-- Comma-separated `repr`s of the entries of a dict. -/
def pyReprObj : List (String × Json) → String
  | [] => ""
  | [(k, v)] => "\x27" ++ k ++ "\x27: " ++ pyRepr v
  | (k, v) :: e :: rest => "\x27" ++ k ++ "\x27: " ++ pyRepr v ++ ", " ++ pyReprObj (e :: rest)

end

/-- Python `str` of a JSON value (used by f-string interpolation). -/
def pyStr : Json → String
  | .str s => s
  | j => pyRepr j

/-- Python `sep.join(xs)`: requires every element to be a string, raising a
`TypeError` otherwise. -/
def strElems : List Json → Except String (List String)
  | [] => .ok []
  | .str s :: rest => (strElems rest).map (fun ss => s :: ss)
  | _ :: _ => .error "TypeError: sequence item: expected str instance"

/-- Python `sep.join(xs)` on a list of JSON values. -/
def pyJoin (sep : String) (xs : List Json) : Except String String :=
  (strElems xs).map (String.intercalate sep)

/-- Python iteration over a JSON value (`for x in j`): elements of a list,
characters of a string, keys of a dict; `TypeError` otherwise. -/
def pyIter (j : Json) : Except String (List Json) :=
  match j with
  | .arr xs => .ok xs
  | .str s => .ok (s.toList.map (fun c => .str (String.singleton c)))
  | .obj kvs => .ok (kvs.map (fun kv => .str kv.1))
  | .null => .error "TypeError: \x27NoneType\x27 object is not iterable"
  | .bool _ => .error "TypeError: \x27bool\x27 object is not iterable"
  | .num _ => .error "TypeError: \x27int\x27 object is not iterable"

/-- Article records produced by `get_articles_from_feeds` (all of whose titles,
links, summaries and sources are strings, and whose `published` field is an
ISO timestamp string or `None`). -/
structure Article where
  title : String
  link : String
  summary : String
  published : Option String
  source : String

/-- The JSON rendering of an article record. -/
def articleToJson (a : Article) : Json :=
  .obj [("title", .str a.title), ("link", .str a.link), ("summary", .str a.summary),
        ("published", match a.published with | some p => .str p | none => .null),
        ("source", .str a.source)]

/-! ## LLM Gateway: `call_groq_api` (app.py lines 105-151) -/

/-- Outcome of one `client.chat.completions.create` + `json.loads` attempt:
either a parsed JSON value or an exception carrying its message `str(e)`. -/
inductive AttemptResult where
  | ok (j : Json)
  | exc (msg : String)

/-- Whether `str(e).lower()` contains `"rate"` (the rate-limit branch). -/
def msgHasRate (msg : String) : Bool := strContainsSub (lowerStr msg) "rate"

/-- Whether `str(e).lower()` contains `"api"` (the API-error branch). -/
def msgHasApi (msg : String) : Bool := strContainsSub (lowerStr msg) "api"

/-- Trace of one `call_groq_api` run: the returned value (`none` = Python
`None`), the durations passed to `time.sleep` in order, and how many attempts
were executed. -/
structure GroqTrace where
  result : Option Json
  sleeps : List Nat
  attemptsMade : Nat

/-- The retry loop `for attempt in range(max_retries)` of `call_groq_api`.
`fuel` is the number of remaining loop iterations and `i` the 0-based index of
the current attempt.  On an exception whose message contains `"rate"` the code
sleeps `30 * (attempt + 1)` and retries; on one containing `"api"` it sleeps
`15 * (attempt + 1)` and retries; on any other exception it returns `None`
immediately.  After the loop it returns `None`. -/
def groqLoop (attempts : Nat → AttemptResult) : Nat → Nat → GroqTrace
  | 0, _ => ⟨none, [], 0⟩
  | fuel + 1, i =>
    match attempts i with
    | .ok j => ⟨some j, [], 1⟩
    | .exc msg =>
      if msgHasRate msg then
        let t := groqLoop attempts fuel (i + 1)
        ⟨t.result, 30 * (i + 1) :: t.sleeps, t.attemptsMade + 1⟩
      else if msgHasApi msg then
        let t := groqLoop attempts fuel (i + 1)
        ⟨t.result, 15 * (i + 1) :: t.sleeps, t.attemptsMade + 1⟩
      else ⟨none, [], 1⟩

/-- `call_groq_api(system_prompt, user_prompt, max_retries)`: returns `None`
without any attempt when the API key is unset/placeholder or the client fails
to initialize, and otherwise runs the retry loop. -/
def callGroqApi (keyConfigured clientOk : Bool) (attempts : Nat → AttemptResult)
    (maxRetries : Nat) : GroqTrace :=
  if !keyConfigured then ⟨none, [], 0⟩
  else if !clientOk then ⟨none, [], 0⟩
  else groqLoop attempts maxRetries 0

/-- The duration slept after attempt `n` (1-based) ends with outcome `a`, if
any: `30 * n` for a rate-limit message, `15 * n` for an API-error message,
nothing for a success or for a non-retried exception. -/
def sleepFor (a : AttemptResult) (n : Nat) : Option Nat :=
  match a with
  | .ok _ => none
  | .exc m => if msgHasRate m then some (30 * n) else if msgHasApi m then some (15 * n) else none

/-- Whether the attempt outcome is an exception that the loop retries. -/
def retryable : AttemptResult → Bool
  | .ok _ => false
  | .exc m => msgHasRate m || msgHasApi m

/-- Whether the attempt outcome is an exception that the loop does not retry
(the `else: return None` branch). -/
def nonRetryableExc : AttemptResult → Bool
  | .ok _ => false
  | .exc m => !(msgHasRate m || msgHasApi m)

/-! ## Batch Analyzer: `analyze_articles_in_batches` (app.py lines 153-193) -/

/-- `num_batches = (len(articles) + batch_size - 1) // batch_size`. -/
def numBatches (n bs : Nat) : Nat := (n + bs - 1) / bs

/-- The Python slice `articles[i * batch_size:(i + 1) * batch_size]`. -/
def batchSlice (articles : List Article) (bs i : Nat) : List Article :=
  (articles.drop (i * bs)).take bs

/-- The sequence of batches the loop slices out, in order. -/
def batchesOf (articles : List Article) (bs : Nat) : List (List Article) :=
  (List.range (numBatches articles.length bs)).map (batchSlice articles bs)

/-- One article line of `content_for_analysis`:
`f"Title: ...\nSummary: ...[:200]...\n\n"`. -/
def articleLine (a : Article) : String :=
  "Title: " ++ a.title ++ "\nSummary: " ++ a.summary.take 200 ++ "...\n\n"

/-- The `content_for_analysis` digest accumulated over a batch. -/
def contentForAnalysis (batch : List Article) : String :=
  batch.foldl (fun acc a => acc ++ articleLine a) ""

/-- The constant system prompt of the Batch Analyzer. -/
def analysisSystemPrompt : String :=
  "You are an expert geopolitical analyst focused on India-US relations. Identify news topics involving BOTH India and USA. Respond ONLY with valid JSON containing \x27trends\x27 array."

/-- The user prompt of the Batch Analyzer with the digest interpolated. -/
def analysisUserPrompt (content : String) : String :=
  "\n        From these articles, identify topics involving BOTH India and USA. Ignore single-country topics.\n        \n        Content:\n        ---\n        " ++
  content ++
  "\n        ---\n        \n        JSON format:\n        \x7b\n            \"trends\": [\n                \x7b \"trend_name\": \"US-India Trade Deal\", \"relevant_articles\": [\"Article Title 1\", \"Article Title 2\"] \x7d\n            ]\n        \x7d\n        "

/-- The guarded accumulation of one batch response:
`if response_json and 'trends' in response_json and isinstance(response_json['trends'], list):`
`    all_trends.extend(response_json['trends'])`.
A `None`/falsy response, a missing `trends` key or a non-list `trends` value
contributes nothing; an exotic response (e.g. a bare string) can raise. -/
def batchTrends (resp : Option Json) : Except String (List Json) :=
  match resp with
  | none => .ok []
  | some j =>
    if pyTruthy j then
      match pyContainsKey j "trends" with
      | .error e => .error e
      | .ok false => .ok []
      | .ok true =>
        match pySubscript j "trends" with
        | .error e => .error e
        | .ok (.arr xs) => .ok xs
        | .ok _ => .ok []
    else .ok []

/-- The contribution of one batch response in the exception-free cases: the
`trends` list when the response is a non-empty object carrying a list under
`"trends"`, and `[]` otherwise. -/
def cleanBatchTrends : Option Json → List Json
  | some (.obj kvs) =>
    if kvs.isEmpty then []
    else
      match (kvs.reverse).lookup "trends" with
      | some (.arr xs) => xs
      | _ => []
  | _ => []

/-- Whether a gateway outcome conforms to the Gateway contract
`JSON object | Failure`. -/
def isObjOption : Option Json → Bool
  | none => true
  | some (.obj _) => true
  | some _ => false

/-- The batch loop over the listed batch indices.  For each index it issues one
gateway call (recording the user prompt sent), accumulates that batch's
trends, and continues; a raised exception aborts the remaining iterations. -/
def analyzeGo (gw : Nat → Option Json) (articles : List Article) (bs : Nat) :
    List Nat → List String × Except String (List Json)
  | [] => ([], .ok [])
  | i :: rest =>
    let p := analysisUserPrompt (contentForAnalysis (batchSlice articles bs i))
    match batchTrends (gw i) with
    | .error e => ([p], .error e)
    | .ok ts =>
      let (ps, r) := analyzeGo gw articles bs rest
      (p :: ps, match r with | .ok acc => .ok (ts ++ acc) | .error e => .error e)

/-- `analyze_articles_in_batches(articles, batch_size)`: returns the user
prompts issued (one per gateway call, in order) and the accumulated
`all_trends` list. -/
def analyzeArticlesInBatches (gw : Nat → Option Json) (articles : List Article)
    (bs : Nat) : List String × Except String (List Json) :=
  analyzeGo gw articles bs (List.range (numBatches articles.length bs))

/-! ## Trend Consolidator: `consolidate_trends` (app.py lines 195-232) -/

/-- The digest contribution of one preliminary trend: non-dicts are skipped;
otherwise a `Trend:` line, plus an `Articles:` line joining the first three
referenced titles when `relevant_articles` is a list (the join raises a
`TypeError` on a non-string element). -/
def trendDigestLine (t : Json) : Except String String :=
  match t with
  | .obj kvs =>
    let line1 := "Trend: " ++ pyStr (pyGet kvs "trend_name" (.str "N/A")) ++ "\n"
    match pyGet kvs "relevant_articles" (.arr []) with
    | .arr xs => (pyJoin ", " (xs.take 3)).map (fun s => line1 ++ "Articles: " ++ s ++ "\n\n")
    | _ => .ok line1
  | _ => .ok ""

/-- The `consolidated_text` digest accumulated over the whole trend list. -/
def buildConsolidatedText : List Json → Except String String
  | [] => .ok ""
  | t :: rest => do
    let l ← trendDigestLine t
    let r ← buildConsolidatedText rest
    .ok (l ++ r)

/-- The constant system prompt of the Trend Consolidator. -/
def consolidationSystemPrompt : String :=
  "You synthesize India-US relations trends. Respond ONLY with valid JSON containing \x27report\x27 array."

/-- The user prompt of the Trend Consolidator with the digest truncated to
2000 characters. -/
def consolidationUserPrompt (digest : String) : String :=
  "\n    Synthesize top 5-7 India-US trends from this data. Merge similar topics.\n    \n    Data:\n    ---\n    " ++
  digest.take 2000 ++
  "  \n    ---\n    \n    JSON format:\n    \x7b\n        \"report\": [\n            \x7b \"trend_name\": \"Modi-Biden Summit\", \"explanation\": \"Recent diplomatic meeting between leaders.\", \"relevant_articles\": [\"Title 1\", \"Title 2\"] \x7d\n        ]\n    \x7d\n    "

/-- The tail of `consolidate_trends`:
`if response_json and 'report' in response_json: return response_json['report']`
`return None`. -/
def consolidateReport (resp : Option Json) : Except String (Option Json) :=
  match resp with
  | none => .ok none
  | some j =>
    if pyTruthy j then
      match pyContainsKey j "report" with
      | .error e => .error e
      | .ok true => (pySubscript j "report").map some
      | .ok false => .ok none
    else .ok none

/-- The report extracted from a contract-conforming gateway outcome: the value
under `"report"` of a non-empty object, `none` otherwise. -/
def cleanReport : Option Json → Option Json
  | some (.obj kvs) => if kvs.isEmpty then none else (kvs.reverse).lookup "report"
  | _ => none

/-- Result of `consolidate_trends`: the `(system_prompt, user_prompt)` pairs of
the gateway calls issued, and the returned value (`none` = Python `None`). -/
structure ConsolidateResult where
  calls : List (String × String)
  report : Except String (Option Json)

/-- `consolidate_trends(trends_list)`: returns `None` at once on an empty
list; otherwise builds the digest, issues exactly one gateway call and returns
the response's `report` value, or `None` when the call failed or the response
lacks a `report` key. -/
def consolidateTrends (gw : Option Json) (trendsList : List Json) : ConsolidateResult :=
  if trendsList.isEmpty then ⟨[], .ok none⟩
  else
    match buildConsolidatedText trendsList with
    | .error e => ⟨[], .error e⟩
    | .ok digest =>
      ⟨[(consolidationSystemPrompt, consolidationUserPrompt digest)], consolidateReport gw⟩

/-! ## Article Re-linker and HTTP boundary: `get_trends`, `get_articles`
(app.py lines 259-363) -/

/-- The stub record substituted for a title with no exact match in
`article_dict`. -/
def stubArticle (title : Json) : Json :=
  .obj [("title", title), ("link", .str "# (Link not found)"),
        ("summary", .str "Article details not available"),
        ("published", .null), ("source", .str "Unknown")]

/-- Lookup in `article_dict = {article['title']: article for article in articles}`:
the last article with the given title wins. -/
def articleLookup (articles : List Article) (t : String) : Option Article :=
  (articles.reverse).find? (fun a => a.title == t)

/-- One iteration of the re-linking loop:
`if title in article_dict: ...append(article_dict[title]) else: ...append(stub)`.
A list or dict title is unhashable, so the membership test raises. -/
def resolveTitle (articles : List Article) (title : Json) : Except String Json :=
  match title with
  | .str s =>
    match articleLookup articles s with
    | some a => .ok (articleToJson a)
    | none => .ok (stubArticle (.str s))
  | .arr _ => .error "TypeError: unhashable type: \x27list\x27"
  | .obj _ => .error "TypeError: unhashable type: \x27dict\x27"
  | t => .ok (stubArticle t)

/-- The re-linking loop over all referenced titles, in order. -/
def resolveTitles (articles : List Article) : List Json → Except String (List Json)
  | [] => .ok []
  | t :: rest => do
    let r ← resolveTitle articles t
    let rs ← resolveTitles articles rest
    .ok (r :: rs)

/-- The resolved-or-stubbed record for a string title. -/
def resolveOrStub (articles : List Article) (t : String) : Json :=
  match articleLookup articles t with
  | some a => articleToJson a
  | none => stubArticle (.str t)

/-- The body of the enhancement loop for one entry of the final report:
non-dict entries produce nothing; a dict entry produces the three-field
enhanced trend, with `trend_name` defaulting to `"N/A"`, `explanation` to
`"No explanation provided."`, and `relevant_articles` resolved title by title
(empty when the field is missing or not a list). -/
def enhanceOneTrend (articles : List Article) (trend : Json) : Except String (Option Json) :=
  match trend with
  | .obj kvs => do
    let resolved ← match pyGet kvs "relevant_articles" (.arr []) with
      | .arr titles => resolveTitles articles titles
      | _ => .ok ([] : List Json)
    .ok (some (.obj [("trend_name", pyGet kvs "trend_name" (.str "N/A")),
                     ("explanation", pyGet kvs "explanation" (.str "No explanation provided.")),
                     ("relevant_articles", .arr resolved)]))
  | _ => .ok none

/-- The enhancement loop over the iterated entries of the final report. -/
def enhanceLoop (articles : List Article) : List Json → Except String (List Json)
  | [] => .ok []
  | t :: rest => do
    let r ← enhanceOneTrend articles t
    let rs ← enhanceLoop articles rest
    match r with
    | some e => .ok (e :: rs)
    | none => .ok rs

/-- `enhanced_trends = []; if final_trends: for trend in final_trends: ...`:
a `None` or falsy final report yields no enhanced trends; otherwise the report
is iterated and each dict entry enhanced. -/
def enhanceTrends (articles : List Article) (finalTrends : Option Json) :
    Except String (List Json) :=
  match finalTrends with
  | none => .ok []
  | some j =>
    if pyTruthy j then do
      let items ← pyIter j
      enhanceLoop articles items
    else .ok []

/-- Whether a JSON value is hashable in Python (not a list and not a dict),
so that it can be looked up in `article_dict` without raising. -/
def hashableJson : Json → Bool
  | .arr _ => false
  | .obj _ => false
  | _ => true

/-- The resolved-or-stubbed record for a hashable title value: a string title
is looked up (stubbed on a miss); any other hashable value never matches a
string key and is stubbed. -/
def resolveTitleClean (articles : List Article) : Json → Json
  | .str s => resolveOrStub articles s
  | t => stubArticle t

/-- The enhanced trend produced from one final-report entry in the
exception-free cases: `none` for a non-dict entry (it is dropped), and
otherwise the three-field record with its defaults and its
resolved-or-stubbed article list (empty when `relevant_articles` is missing
or not a list). -/
def cleanEnhance (articles : List Article) : Json → Option Json
  | .obj kvs =>
    some (.obj [("trend_name", pyGet kvs "trend_name" (.str "N/A")),
                ("explanation", pyGet kvs "explanation" (.str "No explanation provided.")),
                ("relevant_articles",
                 .arr (match pyGet kvs "relevant_articles" (.arr []) with
                       | .arr titles => titles.map (resolveTitleClean articles)
                       | _ => []))])
  | _ => none

/-- `min(max(v, lo), hi)`. -/
def clampInt (v lo hi : Int) : Int := min (max v lo) hi

/-- `hours_back = request.args.get('hours', 72, type=int)` clamped to
`[1, 168]`.  `args` maps a query-parameter name to its integer value, `none`
when the parameter is absent or fails integer conversion (Flask then uses the
default). -/
def clampedHours (args : String → Option Int) : Int :=
  clampInt ((args "hours").getD 72) 1 168

/-- `batch_size = request.args.get('batch_size', 15, type=int)` clamped to
`[10, 20]`. -/
def clampedBatch (args : String → Option Int) : Int :=
  clampInt ((args "batch_size").getD 15) 10 20

/-- The articles the pipeline operates on: the fetch result truncated to its
first 50 elements when longer. -/
def usedArticles (args : String → Option Int) (fetch : Int → List Article) : List Article :=
  let fetched := fetch (clampedHours args)
  if fetched.length > 50 then fetched.take 50 else fetched

/-- Key lookup in a JSON object body. -/
def bodyGet : Json → String → Option Json
  | .obj kvs, k => (kvs.reverse).lookup k
  | _, _ => none

/-- The JSON body of the generic `except` handler of the routes. -/
def errorBody (e ts : String) : Json :=
  .obj [("success", .bool false), ("error", .str e), ("timestamp", .str ts)]

/-- Trace of the values `get_trends` threads into the core pipeline. -/
structure PipelineTrace where
  hoursBack : Int
  batchSize : Int
  articlesUsed : List Article
  analyzeCalls : List String
  consolidateCalls : Nat

/-- An HTTP response of `/trends` together with its pipeline trace. -/
structure HttpResult where
  status : Nat
  body : Json
  trace : PipelineTrace

/-- The `/trends` route handler `get_trends`, as a function of the query
parameters, the article source, the gateway oracles and the timestamp string.
An exception escaping the pipeline is converted into a 500 error body. -/
def getTrends (args : String → Option Int) (fetch : Int → List Article)
    (gwA : Nat → Option Json) (gwC : Option Json) (ts : String) : HttpResult :=
  let hoursBack := clampedHours args
  let batchSize := clampedBatch args
  let fetched := fetch hoursBack
  if fetched.isEmpty then
    ⟨200,
     .obj [("success", .bool true), ("message", .str "No recent articles found"),
           ("trends", .arr []), ("articles_analyzed", .num 0), ("timestamp", .str ts)],
     ⟨hoursBack, batchSize, [], [], 0⟩⟩
  else
    let articles := usedArticles args fetch
    let ar := analyzeArticlesInBatches gwA articles batchSize.toNat
    match ar.2 with
    | .error e => ⟨500, errorBody e ts, ⟨hoursBack, batchSize, articles, ar.1, 0⟩⟩
    | .ok prelim =>
      let cres := consolidateTrends gwC prelim
      match cres.report with
      | .error e =>
        ⟨500, errorBody e ts, ⟨hoursBack, batchSize, articles, ar.1, cres.calls.length⟩⟩
      | .ok finalTrends =>
        match enhanceTrends articles finalTrends with
        | .error e =>
          ⟨500, errorBody e ts, ⟨hoursBack, batchSize, articles, ar.1, cres.calls.length⟩⟩
        | .ok enhanced =>
          ⟨200,
           .obj [("success", .bool true),
                 ("trends_count", .num (enhanced.length : Int)),
                 ("articles_analyzed", .num (articles.length : Int)),
                 ("hours_back", .num hoursBack),
                 ("trends", .arr enhanced),
                 ("timestamp", .str ts)],
           ⟨hoursBack, batchSize, articles, ar.1, cres.calls.length⟩⟩

/-- An HTTP response of `/articles` together with the clamped lookback it
passed to the article source. -/
structure ArticlesResult where
  status : Nat
  body : Json
  hoursUsed : Int

/-- The `/articles` route handler `get_articles`. -/
def getArticles (args : String → Option Int) (fetch : Int → List Article)
    (ts : String) : ArticlesResult :=
  let hoursBack := clampedHours args
  let articles := fetch hoursBack
  ⟨200,
   .obj [("success", .bool true), ("count", .num (articles.length : Int)),
         ("hours_back", .num hoursBack),
         ("articles", .arr (articles.map articleToJson)),
         ("timestamp", .str ts)],
   hoursBack⟩

/-! ## Concrete fixtures used by witnesses and counterexamples -/

/-- A concrete article. -/
def wArticleA : Article := ⟨"A", "http://a", "Summary A", some "2026-01-01T00:00:00", "SrcA"⟩

/-- A second concrete article. -/
def wArticleB : Article := ⟨"B", "http://b", "Summary B", none, "SrcB"⟩

/-- A third concrete article. -/
def wArticleC : Article := ⟨"C", "http://c", "Summary C", none, "SrcC"⟩

/-- A concrete three-article list. -/
def wArticles : List Article := [wArticleA, wArticleB, wArticleC]

/-- A gateway oracle whose every call fails after retries. -/
def gwNone : Nat → Option Json := fun _ => none

/-- A concrete preliminary trend. -/
def wTrend : Json :=
  .obj [("trend_name", .str "T1"), ("relevant_articles", .arr [.str "A"])]

/-- A gateway oracle answering the first call with one trend and failing the
rest. -/
def gwFirstTrend : Nat → Option Json
  | 0 => some (.obj [("trends", .arr [wTrend])])
  | _ + 1 => none

/-- An attempt oracle whose first attempt raises a `json.loads` decode error
(whose message contains neither "rate" nor "api") and whose later attempts
would succeed. -/
def attemptsJsonErr : Nat → AttemptResult :=
  fun n => if n = 0 then .exc "Expecting value: line 1 column 1 (char 0)"
           else .ok (.obj [("trends", .arr [])])

/-- An attempt oracle whose every attempt raises a rate-limit error. -/
def attemptsRate : Nat → AttemptResult := fun _ => .exc "Rate limit reached"

/-- A concrete well-formed final-report entry's key-value list. -/
def wTrendKvs : List (String × Json) :=
  [("trend_name", .str "T"), ("explanation", .str "E"),
   ("relevant_articles", .arr [.str "A", .str "Zed"])]

/-- A request with no query parameters. -/
def argsEmpty : String → Option Int := fun _ => none

/-- A request carrying `hours_back=500` (and no other parameter). -/
def argsHoursBack : String → Option Int :=
  fun k => if k = "hours_back" then some 500 else none

/-- An article source returning one article for every lookback. -/
def fetchOne : Int → List Article := fun _ => [wArticleA]

/-- Sixty concrete articles. -/
def manyArticles : List Article :=
  (List.range 60).map (fun i => ⟨"T" ++ toString i, "L", "S", none, "Src"⟩)

/-- An article source returning sixty articles for every lookback. -/
def fetchMany : Int → List Article := fun _ => manyArticles

/-! ## Gateway lemmas: the retry loop of `call_groq_api` -/

/-- Appending one index in front of a `filterMap` over `List.range`. -/
theorem range_succ_filterMap {α : Type} (g : Nat → Option α) (n : Nat) :
    (List.range (n + 1)).filterMap g =
      (g 0).toList ++ (List.range n).filterMap (fun k => g (k + 1)) := by
  rw [List.range_succ_eq_map, List.filterMap_cons, List.filterMap_map]
  have hc : g ∘ Nat.succ = fun k => g (k + 1) := by funext k; rfl
  rw [hc]
  cases h : g 0 <;> simp [h]

/-- Unfolding of the retry loop at a successful attempt. -/
theorem groqLoop_succ_ok (f : Nat → AttemptResult) (n i : Nat) (j : Json)
    (h : f i = .ok j) : groqLoop f (n + 1) i = ⟨some j, [], 1⟩ := by
  simp only [groqLoop, h]

/-- Unfolding of the retry loop at a failed attempt. -/
theorem groqLoop_succ_exc (f : Nat → AttemptResult) (n i : Nat) (m : String)
    (h : f i = .exc m) :
    groqLoop f (n + 1) i =
      if msgHasRate m then
        ⟨(groqLoop f n (i + 1)).result, 30 * (i + 1) :: (groqLoop f n (i + 1)).sleeps,
         (groqLoop f n (i + 1)).attemptsMade + 1⟩
      else if msgHasApi m then
        ⟨(groqLoop f n (i + 1)).result, 15 * (i + 1) :: (groqLoop f n (i + 1)).sleeps,
         (groqLoop f n (i + 1)).attemptsMade + 1⟩
      else ⟨none, [], 1⟩ := by
  simp only [groqLoop, h]

/-- The loop executes at most `fuel` attempts. -/
theorem groqLoop_attemptsMade_le (f : Nat → AttemptResult) :
    ∀ r i, (groqLoop f r i).attemptsMade ≤ r := by
  intro r
  induction r with
  | zero => intro i; simp [groqLoop]
  | succ n ih =>
    intro i
    cases hfi : f i with
    | ok j => rw [groqLoop_succ_ok f n i j hfi]; simp
    | exc m =>
      rw [groqLoop_succ_exc f n i m hfi]
      cases hrm : msgHasRate m with
      | true =>
        show (groqLoop f n (i + 1)).attemptsMade + 1 ≤ n + 1
        have := ih (i + 1)
        omega
      | false =>
        cases ham : msgHasApi m with
        | true =>
          show (groqLoop f n (i + 1)).attemptsMade + 1 ≤ n + 1
          have := ih (i + 1)
          omega
        | false =>
          show 1 ≤ n + 1
          omega

/-- If every fueled attempt fails retryably, the loop exhausts its fuel and
returns `none`. -/
theorem groqLoop_all_retry (f : Nat → AttemptResult) :
    ∀ r i, (∀ k, k < r → retryable (f (i + k)) = true) →
      (groqLoop f r i).result = none ∧ (groqLoop f r i).attemptsMade = r := by
  intro r
  induction r with
  | zero => intro i _; simp [groqLoop]
  | succ n ih =>
    intro i h
    have h0 : retryable (f i) = true := by simpa using h 0 n.succ_pos
    cases hfi : f i with
    | ok j => rw [hfi] at h0; simp [retryable] at h0
    | exc m =>
      rw [hfi] at h0
      simp only [retryable] at h0
      have hrest : ∀ k, k < n → retryable (f (i + 1 + k)) = true := by
        intro k hk
        have hx := h (k + 1) (by omega)
        have e : i + (k + 1) = i + 1 + k := by omega
        rwa [e] at hx
      obtain ⟨hr1, hr2⟩ := ih (i + 1) hrest
      rw [groqLoop_succ_exc f n i m hfi]
      cases hrm : msgHasRate m with
      | true =>
        show (groqLoop f n (i + 1)).result = none
          ∧ (groqLoop f n (i + 1)).attemptsMade + 1 = n + 1
        exact ⟨hr1, by omega⟩
      | false =>
        cases ham : msgHasApi m with
        | true =>
          show (groqLoop f n (i + 1)).result = none
            ∧ (groqLoop f n (i + 1)).attemptsMade + 1 = n + 1
          exact ⟨hr1, by omega⟩
        | false =>
          rw [hrm, ham] at h0
          simp at h0

/-- If the attempts before index `k` fail retryably and attempt `k` fails
non-retryably, the loop stops right there with `none`. -/
theorem groqLoop_stops (f : Nat → AttemptResult) :
    ∀ k r i, k < r → (∀ j, j < k → retryable (f (i + j)) = true) →
      nonRetryableExc (f (i + k)) = true →
      (groqLoop f r i).result = none ∧ (groqLoop f r i).attemptsMade = k + 1 := by
  intro k
  induction k with
  | zero =>
    intro r i hk _ hnr
    cases r with
    | zero => omega
    | succ n =>
      simp only [Nat.add_zero] at hnr
      cases hfi : f i with
      | ok j => rw [hfi] at hnr; simp [nonRetryableExc] at hnr
      | exc m =>
        rw [hfi] at hnr
        simp only [nonRetryableExc] at hnr
        rw [groqLoop_succ_exc f n i m hfi]
        cases hrm : msgHasRate m with
        | true => rw [hrm] at hnr; simp at hnr
        | false =>
          cases ham : msgHasApi m with
          | true => rw [hrm, ham] at hnr; simp at hnr
          | false => exact ⟨rfl, rfl⟩
  | succ k ih =>
    intro r i hk h hnr
    cases r with
    | zero => omega
    | succ n =>
      have h0 : retryable (f i) = true := by simpa using h 0 k.succ_pos
      cases hfi : f i with
      | ok j => rw [hfi] at h0; simp [retryable] at h0
      | exc m =>
        rw [hfi] at h0
        simp only [retryable] at h0
        have hrest : ∀ j, j < k → retryable (f (i + 1 + j)) = true := by
          intro j hj
          have hx := h (j + 1) (by omega)
          have e : i + (j + 1) = i + 1 + j := by omega
          rwa [e] at hx
        have hnr' : nonRetryableExc (f (i + 1 + k)) = true := by
          have e : i + (k + 1) = i + 1 + k := by omega
          rwa [e] at hnr
        obtain ⟨hr1, hr2⟩ := ih n (i + 1) (by omega) hrest hnr'
        rw [groqLoop_succ_exc f n i m hfi]
        cases hrm : msgHasRate m with
        | true =>
          show (groqLoop f n (i + 1)).result = none
            ∧ (groqLoop f n (i + 1)).attemptsMade + 1 = k + 1 + 1
          exact ⟨hr1, by omega⟩
        | false =>
          cases ham : msgHasApi m with
          | true =>
            show (groqLoop f n (i + 1)).result = none
              ∧ (groqLoop f n (i + 1)).attemptsMade + 1 = k + 1 + 1
            exact ⟨hr1, by omega⟩
          | false =>
            rw [hrm, ham] at h0
            simp at h0

/-- If the attempts before index `k` fail retryably and attempt `k` succeeds,
the loop returns that attempt's value. -/
theorem groqLoop_ok (f : Nat → AttemptResult) :
    ∀ k r i j, k < r → (∀ l, l < k → retryable (f (i + l)) = true) →
      f (i + k) = .ok j →
      (groqLoop f r i).result = some j ∧ (groqLoop f r i).attemptsMade = k + 1 := by
  intro k
  induction k with
  | zero =>
    intro r i j hk _ hok
    cases r with
    | zero => omega
    | succ n =>
      simp only [Nat.add_zero] at hok
      rw [groqLoop_succ_ok f n i j hok]
      exact ⟨rfl, rfl⟩
  | succ k ih =>
    intro r i j hk h hok
    cases r with
    | zero => omega
    | succ n =>
      have h0 : retryable (f i) = true := by simpa using h 0 k.succ_pos
      cases hfi : f i with
      | ok j' => rw [hfi] at h0; simp [retryable] at h0
      | exc m =>
        rw [hfi] at h0
        simp only [retryable] at h0
        have hrest : ∀ l, l < k → retryable (f (i + 1 + l)) = true := by
          intro l hl
          have hx := h (l + 1) (by omega)
          have e : i + (l + 1) = i + 1 + l := by omega
          rwa [e] at hx
        have hok' : f (i + 1 + k) = .ok j := by
          have e : i + (k + 1) = i + 1 + k := by omega
          rwa [e] at hok
        obtain ⟨hr1, hr2⟩ := ih n (i + 1) j (by omega) hrest hok'
        rw [groqLoop_succ_exc f n i m hfi]
        cases hrm : msgHasRate m with
        | true =>
          show (groqLoop f n (i + 1)).result = some j
            ∧ (groqLoop f n (i + 1)).attemptsMade + 1 = k + 1 + 1
          exact ⟨hr1, by omega⟩
        | false =>
          cases ham : msgHasApi m with
          | true =>
            show (groqLoop f n (i + 1)).result = some j
              ∧ (groqLoop f n (i + 1)).attemptsMade + 1 = k + 1 + 1
            exact ⟨hr1, by omega⟩
          | false =>
            rw [hrm, ham] at h0
            simp at h0

/-- The slept durations are exactly `sleepFor` of each executed attempt, in
order — including the last executed attempt. -/
theorem groqLoop_sleeps (f : Nat → AttemptResult) :
    ∀ r i, (groqLoop f r i).sleeps =
      (List.range (groqLoop f r i).attemptsMade).filterMap
        (fun k => sleepFor (f (i + k)) (i + k + 1)) := by
  intro r
  induction r with
  | zero => intro i; simp [groqLoop]
  | succ n ih =>
    intro i
    cases hfi : f i with
    | ok j =>
      rw [groqLoop_succ_ok f n i j hfi]
      show ([] : List Nat) =
        (List.range (0 + 1)).filterMap (fun k => sleepFor (f (i + k)) (i + k + 1))
      rw [range_succ_filterMap]
      have hhead : ((fun k => sleepFor (f (i + k)) (i + k + 1)) 0).toList = [] := by
        show (sleepFor (f (i + 0)) (i + 0 + 1)).toList = []
        rw [Nat.add_zero, hfi]
        rfl
      rw [hhead]
      simp
    | exc m =>
      rw [groqLoop_succ_exc f n i m hfi]
      cases hrm : msgHasRate m with
      | true =>
        show 30 * (i + 1) :: (groqLoop f n (i + 1)).sleeps =
          (List.range ((groqLoop f n (i + 1)).attemptsMade + 1)).filterMap
            (fun k => sleepFor (f (i + k)) (i + k + 1))
        rw [range_succ_filterMap, ih (i + 1)]
        have hhead : ((fun k => sleepFor (f (i + k)) (i + k + 1)) 0).toList
            = [30 * (i + 1)] := by
          show (sleepFor (f (i + 0)) (i + 0 + 1)).toList = [30 * (i + 1)]
          rw [Nat.add_zero, hfi]
          simp [sleepFor, hrm]
        rw [hhead, List.singleton_append]
        congr 1
        have hfun : (fun k => sleepFor (f (i + 1 + k)) (i + 1 + k + 1)) =
            (fun k => (fun l => sleepFor (f (i + l)) (i + l + 1)) (k + 1)) := by
          funext k
          show sleepFor (f (i + 1 + k)) (i + 1 + k + 1) =
            sleepFor (f (i + (k + 1))) (i + (k + 1) + 1)
          have e : i + (k + 1) = i + 1 + k := by omega
          rw [e]
        rw [hfun]
      | false =>
        cases ham : msgHasApi m with
        | true =>
          show 15 * (i + 1) :: (groqLoop f n (i + 1)).sleeps =
            (List.range ((groqLoop f n (i + 1)).attemptsMade + 1)).filterMap
              (fun k => sleepFor (f (i + k)) (i + k + 1))
          rw [range_succ_filterMap, ih (i + 1)]
          have hhead : ((fun k => sleepFor (f (i + k)) (i + k + 1)) 0).toList
              = [15 * (i + 1)] := by
            show (sleepFor (f (i + 0)) (i + 0 + 1)).toList = [15 * (i + 1)]
            rw [Nat.add_zero, hfi]
            simp [sleepFor, hrm, ham]
          rw [hhead, List.singleton_append]
          congr 1
          have hfun : (fun k => sleepFor (f (i + 1 + k)) (i + 1 + k + 1)) =
              (fun k => (fun l => sleepFor (f (i + l)) (i + l + 1)) (k + 1)) := by
            funext k
            show sleepFor (f (i + 1 + k)) (i + 1 + k + 1) =
              sleepFor (f (i + (k + 1))) (i + (k + 1) + 1)
            have e : i + (k + 1) = i + 1 + k := by omega
            rw [e]
          rw [hfun]
        | false =>
          show ([] : List Nat) =
            (List.range (0 + 1)).filterMap (fun k => sleepFor (f (i + k)) (i + k + 1))
          rw [range_succ_filterMap]
          have hhead : ((fun k => sleepFor (f (i + k)) (i + k + 1)) 0).toList = [] := by
            show (sleepFor (f (i + 0)) (i + 0 + 1)).toList = []
            rw [Nat.add_zero, hfi]
            simp [sleepFor, hrm, ham]
          rw [hhead]
          simp

/-! ## Claim theorems -/

/-- C2, counterexample: when the first attempt fails with a `json.loads`
decode error (a malformed/non-JSON response), `call_groq_api` returns `None`
after a single attempt — it does not retry — even though the second attempt
would have succeeded. -/
theorem claim_C2_counterexample :
    (callGroqApi true true attemptsJsonErr 3).result = none
    ∧ (callGroqApi true true attemptsJsonErr 3).attemptsMade = 1
    ∧ attemptsJsonErr 1 = .ok (.obj [("trends", .arr [])])
    ∧ nonRetryableExc (attemptsJsonErr 0) = true :=
  ⟨rfl, rfl, rfl, rfl⟩

/-- C2 (amended): `call_groq_api` makes at most 3 attempts and never raises
(it returns `None` on failure), but it retries only failures whose message
contains "rate" or "api" (case-insensitively): if every attempt fails that
way it gives up with `None` after exactly 3 attempts; a failure of any other
kind makes it return `None` immediately after the failing attempt; a success
is returned at once. -/
theorem claim_C2 (f : Nat → AttemptResult) :
    (callGroqApi true true f 3).attemptsMade ≤ 3
    ∧ ((∀ k, k < 3 → retryable (f k) = true) →
        (callGroqApi true true f 3).result = none
        ∧ (callGroqApi true true f 3).attemptsMade = 3)
    ∧ (∀ k, k < 3 → (∀ j, j < k → retryable (f j) = true) →
        nonRetryableExc (f k) = true →
        (callGroqApi true true f 3).result = none
        ∧ (callGroqApi true true f 3).attemptsMade = k + 1)
    ∧ (∀ k j, k < 3 → (∀ l, l < k → retryable (f l) = true) → f k = .ok j →
        (callGroqApi true true f 3).result = some j
        ∧ (callGroqApi true true f 3).attemptsMade = k + 1) := by
  have hcall : callGroqApi true true f 3 = groqLoop f 3 0 := rfl
  refine ⟨?_, ?_, ?_, ?_⟩
  · rw [hcall]; exact groqLoop_attemptsMade_le f 3 0
  · intro h
    rw [hcall]
    exact groqLoop_all_retry f 3 0 (by intro k hk; simpa using h k hk)
  · intro k hk h hnr
    rw [hcall]
    exact groqLoop_stops f k 3 0 hk (by intro j hj; simpa using h j hj) (by simpa using hnr)
  · intro k j hk h hok
    rw [hcall]
    exact groqLoop_ok f k 3 0 j hk (by intro l hl; simpa using h l hl) (by simpa using hok)

/-- C2, witness: the amended theorem applied to the all-rate-limited oracle. -/
theorem claim_C2_witness :
    (callGroqApi true true attemptsRate 3).result = none
    ∧ (callGroqApi true true attemptsRate 3).attemptsMade = 3 :=
  (claim_C2 attemptsRate).2.1 (by intro k _; rfl)

/-- C3, counterexample: with every attempt rate-limited, `call_groq_api`
sleeps `[30, 60, 90]` — the wait of `30 * 3` is performed after the third and
final attempt as well, where the claim predicts the sleeps `[30, 60]`. -/
theorem claim_C3_counterexample :
    callGroqApi true true attemptsRate 3 = ⟨none, [30, 60, 90], 3⟩
    ∧ (callGroqApi true true attemptsRate 3).sleeps ≠ [30, 60] := by
  constructor
  · rfl
  · intro h
    have : ([30, 60, 90] : List Nat) = [30, 60] := h
    simp at this

/-- C3 (amended): after a rate-limit failure on (1-based) attempt `k` the code
sleeps `30 * k`, after any other retried ("api") failure it sleeps `15 * k`,
a success or a non-retried failure is not followed by a sleep — and the sleep
is performed after every retried failure, including the final attempt (it is
not skipped). -/
theorem claim_C3 (f : Nat → AttemptResult) :
    (callGroqApi true true f 3).sleeps =
      (List.range (callGroqApi true true f 3).attemptsMade).filterMap
        (fun k => sleepFor (f k) (k + 1))
    ∧ (∀ m n, msgHasRate m = true → sleepFor (.exc m) n = some (30 * n))
    ∧ (∀ m n, msgHasRate m = false → msgHasApi m = true →
        sleepFor (.exc m) n = some (15 * n))
    ∧ (∀ j n, sleepFor (.ok j) n = none) := by
  refine ⟨?_, ?_, ?_, ?_⟩
  · have h := groqLoop_sleeps f 3 0
    simpa using h
  · intro m n h; simp [sleepFor, h]
  · intro m n h1 h2; simp [sleepFor, h1, h2]
  · intro j n; rfl

/-- C3, witness: the amended theorem applied to the decode-error oracle. -/
theorem claim_C3_witness :
    (callGroqApi true true attemptsJsonErr 3).sleeps =
      (List.range (callGroqApi true true attemptsJsonErr 3).attemptsMade).filterMap
        (fun k => sleepFor (attemptsJsonErr k) (k + 1)) :=
  (claim_C3 attemptsJsonErr).1

/-! ## Batch Analyzer lemmas -/

/-- The batch count of an empty article list is zero. -/
theorem numBatches_zero (bs : Nat) : numBatches 0 bs = 0 := by
  unfold numBatches
  rcases Nat.eq_zero_or_pos bs with h | h
  · subst h; rfl
  · exact Nat.div_eq_of_lt (by omega)

/-- Peeling one batch off the batch count. -/
theorem numBatches_succ (n bs : Nat) (hbs : 1 ≤ bs) (hn : 0 < n) :
    numBatches n bs = numBatches (n - bs) bs + 1 := by
  unfold numBatches
  rcases le_or_lt n bs with hle | hlt
  · have h1 : n - bs = 0 := by omega
    rw [h1]
    have h2 : (0 + bs - 1) / bs = 0 := Nat.div_eq_of_lt (by omega)
    rw [h2]
    have h3 : n + bs - 1 = bs * 1 + (n - 1) := by omega
    rw [h3, Nat.mul_add_div (by omega : 0 < bs)]
    have h4 : (n - 1) / bs = 0 := Nat.div_eq_of_lt (by omega)
    omega
  · have h3 : n + bs - 1 = n - bs + bs - 1 + bs := by omega
    rw [h3, Nat.add_div_right _ (by omega : 0 < bs)]

/-- There are no batches of an empty article list. -/
theorem batchesOf_nil (bs : Nat) : batchesOf [] bs = [] := by
  simp [batchesOf, numBatches_zero]

/-- Peeling the first batch off a non-empty article list. -/
theorem batchesOf_cons (bs : Nat) (hbs : 1 ≤ bs) (articles : List Article)
    (hne : articles ≠ []) :
    batchesOf articles bs = articles.take bs :: batchesOf (articles.drop bs) bs := by
  have hn : 0 < articles.length := List.length_pos.mpr hne
  unfold batchesOf
  rw [List.length_drop, numBatches_succ articles.length bs hbs hn,
    List.range_succ_eq_map, List.map_cons, List.map_map]
  congr 1
  · show batchSlice articles bs 0 = articles.take bs
    simp [batchSlice]
  · have hfun : batchSlice articles bs ∘ Nat.succ = batchSlice (articles.drop bs) bs := by
      funext k
      show batchSlice articles bs (k + 1) = batchSlice (articles.drop bs) bs k
      unfold batchSlice
      rw [List.drop_drop]
      have e : (k + 1) * bs = bs + k * bs := by ring
      rw [e]
    rw [hfun]

/-- The batches partition the article list: concatenated in order they give it
back. -/
theorem batchesOf_join (bs : Nat) (hbs : 1 ≤ bs) (articles : List Article) :
    (batchesOf articles bs).flatten = articles := by
  cases harts : articles with
  | nil => simp [batchesOf_nil]
  | cons a rest =>
    rw [batchesOf_cons bs hbs (a :: rest) (by simp), List.flatten_cons,
      batchesOf_join bs hbs ((a :: rest).drop bs)]
    exact List.take_append_drop bs (a :: rest)
termination_by articles.length
decreasing_by
  simp [harts, List.length_drop]
  omega

/-- Every batch holds at most `batch_size` articles. -/
theorem batchesOf_le (articles : List Article) (bs : Nat) :
    ∀ b ∈ batchesOf articles bs, b.length ≤ bs := by
  intro b hb
  simp only [batchesOf, List.mem_map] at hb
  obtain ⟨i, _, rfl⟩ := hb
  rw [batchSlice, List.length_take]
  exact min_le_left _ _

/-- On a contract-conforming response the accumulation guard cannot raise and
contributes `cleanBatchTrends`. -/
theorem batchTrends_eq_clean (resp : Option Json) (h : isObjOption resp = true) :
    batchTrends resp = .ok (cleanBatchTrends resp) := by
  cases resp with
  | none => rfl
  | some j =>
    cases j with
    | null => simp [isObjOption] at h
    | bool b => simp [isObjOption] at h
    | num n => simp [isObjOption] at h
    | str s => simp [isObjOption] at h
    | arr xs => simp [isObjOption] at h
    | obj kvs =>
      simp only [batchTrends, cleanBatchTrends, pyTruthy, pyContainsKey]
      cases hkv : kvs.isEmpty with
      | true => simp
      | false =>
        simp only [Bool.not_false, if_true]
        cases hlk : (kvs.reverse).lookup "trends" with
        | none => simp [hlk]
        | some v =>
          simp only [hlk, Option.isSome_some, if_true]
          cases v <;> simp [pySubscript, hlk]

/-- The batch loop under contract-conforming responses: one call per listed
index, and the concatenation of the per-batch contributions, with no
exception. -/
theorem analyzeGo_clean (gw : Nat → Option Json) (articles : List Article) (bs : Nat)
    (idxs : List Nat) (h : ∀ i ∈ idxs, isObjOption (gw i) = true) :
    analyzeGo gw articles bs idxs =
      (idxs.map (fun i => analysisUserPrompt (contentForAnalysis (batchSlice articles bs i))),
       .ok ((idxs.map (fun i => cleanBatchTrends (gw i))).flatten)) := by
  induction idxs with
  | nil => rfl
  | cons i rest ih =>
    have hi := h i (List.mem_cons_self i rest)
    have hrest : ∀ x ∈ rest, isObjOption (gw x) = true :=
      fun x hx => h x (List.mem_cons_of_mem i hx)
    simp only [analyzeGo]
    rw [batchTrends_eq_clean (gw i) hi, ih hrest]
    rfl

/-- C1: for `batch_size ≥ 1` and contract-conforming gateway outcomes,
`analyze_articles_in_batches` issues exactly `⌈n / batch_size⌉` gateway calls;
the prompts sent correspond, in order, to the contiguous batches
`articles[i*bs:(i+1)*bs]`, which have at most `batch_size` elements each and
concatenate back to the input list (no overlap, no omission; the last batch
may be smaller). -/
theorem claim_C1 (gw : Nat → Option Json) (articles : List Article) (bs : Nat)
    (hbs : 1 ≤ bs) (hgw : ∀ i, isObjOption (gw i) = true) :
    (analyzeArticlesInBatches gw articles bs).1.length = articles.length ⌈/⌉ bs
    ∧ (analyzeArticlesInBatches gw articles bs).1 =
        (batchesOf articles bs).map (fun b => analysisUserPrompt (contentForAnalysis b))
    ∧ (batchesOf articles bs).flatten = articles
    ∧ ∀ b ∈ batchesOf articles bs, b.length ≤ bs := by
  have hgo := analyzeGo_clean gw articles bs
    (List.range (numBatches articles.length bs)) (fun i _ => hgw i)
  have hcalls : (analyzeArticlesInBatches gw articles bs).1 =
      (List.range (numBatches articles.length bs)).map
        (fun i => analysisUserPrompt (contentForAnalysis (batchSlice articles bs i))) := by
    show (analyzeGo gw articles bs (List.range (numBatches articles.length bs))).1 = _
    rw [hgo]
  refine ⟨?_, ?_, batchesOf_join bs hbs articles, batchesOf_le articles bs⟩
  · rw [hcalls, List.length_map, List.length_range, Nat.ceilDiv_eq_add_pred_div]
    rfl
  · rw [hcalls]
    simp only [batchesOf, List.map_map]
    rfl

/-- C1, witness: three articles in batches of two make `⌈3 / 2⌉ = 2` calls. -/
theorem claim_C1_witness :
    (analyzeArticlesInBatches gwNone wArticles 2).1.length = wArticles.length ⌈/⌉ 2 :=
  (claim_C1 gwNone wArticles 2 (by omega) (fun _ => rfl)).1

/-- C7: under contract-conforming gateway outcomes the accumulated trends are
the concatenation, in batch order, of the per-batch contributions; a batch
whose call returned a Failure contributes zero trends, as does a batch whose
response object lacks a `trends` key or holds a non-list under it, while a
well-formed `trends` list is contributed whole. -/
theorem claim_C7 (gw : Nat → Option Json) (articles : List Article) (bs : Nat)
    (hgw : ∀ i, isObjOption (gw i) = true) :
    (analyzeArticlesInBatches gw articles bs).2 =
      .ok (((List.range (numBatches articles.length bs)).map
        (fun i => cleanBatchTrends (gw i))).flatten)
    ∧ cleanBatchTrends none = []
    ∧ (∀ kvs, (kvs.reverse).lookup "trends" = none →
        cleanBatchTrends (some (.obj kvs)) = [])
    ∧ (∀ kvs v, (kvs.reverse).lookup "trends" = some v → (∀ xs, v ≠ .arr xs) →
        cleanBatchTrends (some (.obj kvs)) = [])
    ∧ (∀ kvs xs, kvs ≠ [] → (kvs.reverse).lookup "trends" = some (.arr xs) →
        cleanBatchTrends (some (.obj kvs)) = xs) := by
  refine ⟨?_, rfl, ?_, ?_, ?_⟩
  · have hgo := analyzeGo_clean gw articles bs
      (List.range (numBatches articles.length bs)) (fun i _ => hgw i)
    show (analyzeGo gw articles bs (List.range (numBatches articles.length bs))).2 = _
    rw [hgo]
  · intro kvs hlk
    cases hkv : kvs.isEmpty <;> simp [cleanBatchTrends, hkv, hlk]
  · intro kvs v hlk hne
    have hkv : kvs.isEmpty = false := by
      cases kvs with
      | nil => simp at hlk
      | cons a l => rfl
    simp only [cleanBatchTrends, hkv, Bool.false_eq_true, if_false, hlk]
    cases v with
    | arr xs => exact absurd rfl (hne xs)
    | null => rfl
    | bool b => rfl
    | num n => rfl
    | str s => rfl
    | obj o => rfl
  · intro kvs xs hne hlk
    have hkv : kvs.isEmpty = false := by
      cases kvs with
      | nil => exact absurd rfl hne
      | cons a l => rfl
    simp [cleanBatchTrends, hkv, hlk]

/-- C7, witness: with the first batch contributing one trend and the second
batch failing, the result is exactly that one trend (the worked example of the
specification). -/
theorem claim_C7_witness :
    (analyzeArticlesInBatches gwFirstTrend wArticles 2).2 =
      .ok (((List.range (numBatches wArticles.length 2)).map
        (fun i => cleanBatchTrends (gwFirstTrend i))).flatten) :=
  (claim_C7 gwFirstTrend wArticles 2 (fun i => by cases i <;> rfl)).1

/-! ## Trend Consolidator lemmas and claims -/

/-- On a contract-conforming gateway outcome the report extraction cannot
raise and yields `cleanReport`. -/
theorem consolidateReport_eq_clean (resp : Option Json) (h : isObjOption resp = true) :
    consolidateReport resp = .ok (cleanReport resp) := by
  cases resp with
  | none => rfl
  | some j =>
    cases j with
    | null => simp [isObjOption] at h
    | bool b => simp [isObjOption] at h
    | num n => simp [isObjOption] at h
    | str s => simp [isObjOption] at h
    | arr xs => simp [isObjOption] at h
    | obj kvs =>
      simp only [consolidateReport, cleanReport, pyTruthy, pyContainsKey]
      cases hkv : kvs.isEmpty with
      | true => simp
      | false =>
        simp only [Bool.not_false, if_true]
        cases hlk : (kvs.reverse).lookup "report" with
        | none => simp [hlk]
        | some v => simp [pySubscript, hlk, Except.map]

/-- C5: `consolidate_trends` returns `None` on an empty trend list; for a
non-empty list (whose digest builds without exception) it issues exactly one
gateway call, and returns `None` whenever the call failed or the response
object lacks a `report` key. -/
theorem claim_C5 (gw : Option Json) (tl : List Json) (digest : String)
    (hne : tl ≠ []) (hd : buildConsolidatedText tl = .ok digest)
    (hgw : isObjOption gw = true) :
    consolidateTrends gw [] = ⟨[], .ok none⟩
    ∧ (consolidateTrends gw tl).calls.length = 1
    ∧ (consolidateTrends gw tl).report = .ok (cleanReport gw)
    ∧ (gw = none → cleanReport gw = none)
    ∧ (∀ kvs, gw = some (.obj kvs) → (kvs.reverse).lookup "report" = none →
        cleanReport gw = none) := by
  have hisEmpty : tl.isEmpty = false := by
    cases tl with
    | nil => exact absurd rfl hne
    | cons a l => rfl
  have hmain : consolidateTrends gw tl =
      ⟨[(consolidationSystemPrompt, consolidationUserPrompt digest)],
       consolidateReport gw⟩ := by
    unfold consolidateTrends
    simp [hisEmpty, hd]
  refine ⟨rfl, ?_, ?_, ?_, ?_⟩
  · rw [hmain]
    rfl
  · rw [hmain]
    show consolidateReport gw = .ok (cleanReport gw)
    exact consolidateReport_eq_clean gw hgw
  · intro h; subst h; rfl
  · intro kvs h hlk
    subst h
    cases hkv : kvs.isEmpty <;> simp [cleanReport, hkv, hlk]

/-- C5, witness: one preliminary trend, failing gateway call — one call was
issued and the report is `None`. -/
theorem claim_C5_witness :
    (consolidateTrends none [wTrend]).calls.length = 1
    ∧ (consolidateTrends none [wTrend]).report = .ok (cleanReport none) :=
  ⟨(claim_C5 none [wTrend] "Trend: T1\nArticles: A\n\n"
      (List.cons_ne_nil _ _) rfl rfl).2.1,
   (claim_C5 none [wTrend] "Trend: T1\nArticles: A\n\n"
      (List.cons_ne_nil _ _) rfl rfl).2.2.1⟩

/-! ## Article Re-linker lemmas and claims -/

/-- Resolving a hashable title cannot raise and yields `resolveTitleClean`. -/
theorem resolveTitle_hashable (articles : List Article) (t : Json)
    (h : hashableJson t = true) :
    resolveTitle articles t = .ok (resolveTitleClean articles t) := by
  cases t with
  | str s =>
    cases hla : articleLookup articles s <;>
      simp [resolveTitle, resolveTitleClean, resolveOrStub, hla]
  | arr xs => simp [hashableJson] at h
  | obj kvs => simp [hashableJson] at h
  | null => rfl
  | bool b => rfl
  | num n => rfl

/-- Resolving a list of hashable titles cannot raise; it maps
`resolveTitleClean` over the list, preserving order and count. -/
theorem resolveTitles_hashable (articles : List Article) (titles : List Json)
    (h : ∀ t ∈ titles, hashableJson t = true) :
    resolveTitles articles titles = .ok (titles.map (resolveTitleClean articles)) := by
  induction titles with
  | nil => rfl
  | cons t rest ih =>
    have ht := h t (List.mem_cons_self t rest)
    have hrest : ∀ x ∈ rest, hashableJson x = true :=
      fun x hx => h x (List.mem_cons_of_mem t hx)
    simp only [resolveTitles]
    rw [resolveTitle_hashable articles t ht, ih hrest]
    rfl

/-- C6: for a final trend whose `relevant_articles` is a list of (string)
titles, enhancement replaces the list, position by position, by the full
article record when the title is in the lookup and by the stub record
`{title, link: "# (Link not found)", summary: "Article details not
available", published: null, source: "Unknown"}` otherwise; the output list
has the same length and order as the title list and no reference is
dropped. -/
theorem claim_C6 (articles : List Article) (kvs : List (String × Json))
    (titles : List String)
    (hra : pyGet kvs "relevant_articles" (.arr []) = .arr (titles.map .str)) :
    enhanceOneTrend articles (.obj kvs) =
      .ok (some (.obj [("trend_name", pyGet kvs "trend_name" (.str "N/A")),
                       ("explanation", pyGet kvs "explanation" (.str "No explanation provided.")),
                       ("relevant_articles", .arr (titles.map (resolveOrStub articles)))]))
    ∧ (titles.map (resolveOrStub articles)).length = titles.length
    ∧ (∀ t a, articleLookup articles t = some a →
        resolveOrStub articles t = articleToJson a)
    ∧ (∀ t, articleLookup articles t = none →
        resolveOrStub articles t = stubArticle (.str t))
    ∧ (∀ t, stubArticle (.str t) =
        .obj [("title", .str t), ("link", .str "# (Link not found)"),
              ("summary", .str "Article details not available"),
              ("published", .null), ("source", .str "Unknown")]) := by
  refine ⟨?_, List.length_map _ _, ?_, ?_, fun t => rfl⟩
  · simp only [enhanceOneTrend, hra]
    have hres : resolveTitles articles (titles.map .str) =
        .ok ((titles.map .str).map (resolveTitleClean articles)) := by
      apply resolveTitles_hashable
      intro t ht
      simp only [List.mem_map] at ht
      obtain ⟨s, _, rfl⟩ := ht
      rfl
    rw [hres, List.map_map]
    rfl
  · intro t a h; simp [resolveOrStub, h]
  · intro t h; simp [resolveOrStub, h]

/-- C6, witness: a trend referencing the present title "A" and the absent
title "Zed" keeps both references, resolved and stubbed respectively. -/
theorem claim_C6_witness :
    enhanceOneTrend wArticles (.obj wTrendKvs) =
      .ok (some (.obj [("trend_name", pyGet wTrendKvs "trend_name" (.str "N/A")),
                       ("explanation", pyGet wTrendKvs "explanation" (.str "No explanation provided.")),
                       ("relevant_articles", .arr (["A", "Zed"].map (resolveOrStub wArticles)))])) :=
  (claim_C6 wArticles wTrendKvs ["A", "Zed"] rfl).1

/-- Enhancing one entry whose `relevant_articles` holds only hashable values
cannot raise and yields `cleanEnhance`. -/
theorem enhanceOneTrend_clean (articles : List Article) (e : Json)
    (he : ∀ kvs, e = .obj kvs →
      ∀ xs, pyGet kvs "relevant_articles" (.arr []) = .arr xs →
        ∀ x ∈ xs, hashableJson x = true) :
    enhanceOneTrend articles e = .ok (cleanEnhance articles e) := by
  cases e with
  | obj kvs =>
    cases hra : pyGet kvs "relevant_articles" (.arr []) with
    | arr xs =>
      have hxs := he kvs rfl xs hra
      simp only [enhanceOneTrend, cleanEnhance, hra]
      rw [resolveTitles_hashable articles xs hxs]
      rfl
    | null => simp only [enhanceOneTrend, cleanEnhance, hra]; rfl
    | bool b => simp only [enhanceOneTrend, cleanEnhance, hra]; rfl
    | num n => simp only [enhanceOneTrend, cleanEnhance, hra]; rfl
    | str s => simp only [enhanceOneTrend, cleanEnhance, hra]; rfl
    | obj o => simp only [enhanceOneTrend, cleanEnhance, hra]; rfl
  | null => rfl
  | bool b => rfl
  | num n => rfl
  | str s => rfl
  | arr xs => rfl

/-- The enhancement loop over hashable-only entries collects exactly the
non-dropped `cleanEnhance` outputs, in order. -/
theorem enhanceLoop_clean (articles : List Article) (entries : List Json)
    (hh : ∀ e ∈ entries, ∀ kvs, e = .obj kvs →
      ∀ xs, pyGet kvs "relevant_articles" (.arr []) = .arr xs →
        ∀ x ∈ xs, hashableJson x = true) :
    enhanceLoop articles entries = .ok (entries.filterMap (cleanEnhance articles)) := by
  induction entries with
  | nil => rfl
  | cons e rest ih =>
    have he := hh e (List.mem_cons_self e rest)
    have hrest : ∀ x ∈ rest, ∀ kvs, x = .obj kvs →
        ∀ xs, pyGet kvs "relevant_articles" (.arr []) = .arr xs →
          ∀ y ∈ xs, hashableJson y = true :=
      fun x hx => hh x (List.mem_cons_of_mem e hx)
    simp only [enhanceLoop]
    rw [enhanceOneTrend_clean articles e he, ih hrest]
    cases hce : cleanEnhance articles e <;> simp only [List.filterMap_cons, hce] <;> rfl

/-- C10, counterexample: a final report whose single entry references an
(unhashable) empty list makes the enhancement loop raise a `TypeError` — it
is not exception-free over all malformed consolidator output. -/
theorem claim_C10_counterexample :
    enhanceTrends [] (some (.arr [.obj [("relevant_articles", .arr [.arr []])]])) =
      .error "TypeError: unhashable type: \x27list\x27" := rfl

/-- C10 (amended): over a final report that is a list whose dict entries hold
only hashable (non-list, non-dict) values inside `relevant_articles`,
enhancement is total: non-dict entries are silently dropped, a missing
`trend_name` defaults to `"N/A"`, a missing `explanation` defaults to
`"No explanation provided."`, a missing or non-list `relevant_articles`
yields an empty article list, and every produced trend carries exactly the
three fields.  (With an unhashable value inside `relevant_articles` the
membership test raises a `TypeError`, caught only by the route's generic
500 handler.) -/
theorem claim_C10 (articles : List Article) (entries : List Json)
    (hh : ∀ e ∈ entries, ∀ kvs, e = .obj kvs →
      ∀ xs, pyGet kvs "relevant_articles" (.arr []) = .arr xs →
        ∀ x ∈ xs, hashableJson x = true) :
    enhanceTrends articles (some (.arr entries)) =
      .ok (entries.filterMap (cleanEnhance articles))
    ∧ (∀ j, (∀ kvs, j ≠ .obj kvs) → cleanEnhance articles j = none)
    ∧ (∀ kvs, (kvs.reverse).lookup "trend_name" = none →
        ∃ t, cleanEnhance articles (.obj kvs) = some t
          ∧ bodyGet t "trend_name" = some (.str "N/A"))
    ∧ (∀ kvs, (kvs.reverse).lookup "explanation" = none →
        ∃ t, cleanEnhance articles (.obj kvs) = some t
          ∧ bodyGet t "explanation" = some (.str "No explanation provided."))
    ∧ (∀ kvs v, pyGet kvs "relevant_articles" (.arr []) = v →
        (∀ xs, v ≠ .arr xs) →
        ∃ t, cleanEnhance articles (.obj kvs) = some t
          ∧ bodyGet t "relevant_articles" = some (.arr []))
    ∧ (∀ j t, cleanEnhance articles j = some t →
        ∃ n ex ra, t = .obj [("trend_name", n), ("explanation", ex),
                            ("relevant_articles", .arr ra)]) := by
  refine ⟨?_, ?_, ?_, ?_, ?_, ?_⟩
  · cases entries with
    | nil => rfl
    | cons e rest =>
      simp only [enhanceTrends, pyTruthy, pyIter, List.isEmpty_cons, Bool.not_false, if_true]
      exact enhanceLoop_clean articles (e :: rest) hh
  · intro j hj
    cases j with
    | obj kvs => exact absurd rfl (hj kvs)
    | null => rfl
    | bool b => rfl
    | num n => rfl
    | str s => rfl
    | arr xs => rfl
  · intro kvs hlk
    refine ⟨_, rfl, ?_⟩
    show some (pyGet kvs "trend_name" (.str "N/A")) = some (.str "N/A")
    simp [pyGet, hlk]
  · intro kvs hlk
    refine ⟨_, rfl, ?_⟩
    show some (pyGet kvs "explanation" (.str "No explanation provided.")) =
      some (.str "No explanation provided.")
    simp [pyGet, hlk]
  · intro kvs v hra hne
    refine ⟨_, rfl, ?_⟩
    show some (Json.arr (match pyGet kvs "relevant_articles" (.arr []) with
      | .arr titles => titles.map (resolveTitleClean articles)
      | _ => [])) = some (.arr [])
    rw [hra]
    cases v with
    | arr xs => exact absurd rfl (hne xs)
    | null => rfl
    | bool b => rfl
    | num n => rfl
    | str s => rfl
    | obj o => rfl
  · intro j t h
    cases j with
    | obj kvs =>
      simp only [cleanEnhance, Option.some.injEq] at h
      exact ⟨_, _, _, h.symm⟩
    | null => cases h
    | bool b => cases h
    | num n => cases h
    | str s => cases h
    | arr xs => cases h

/-- C10, witness: a report consisting of one non-dict entry is enhanced
without exception and the entry is dropped. -/
theorem claim_C10_witness :
    enhanceTrends wArticles (some (.arr [Json.null])) =
      .ok ([Json.null].filterMap (cleanEnhance wArticles)) :=
  (claim_C10 wArticles [Json.null]
    (by
      intro e he kvs hkv
      have he' : e = Json.null := List.mem_singleton.mp he
      rw [he'] at hkv
      exact Json.noConfusion hkv)).1

/-! ## HTTP boundary lemmas and claims -/

/-- The gateway-call prompts of the Batch Analyzer are the per-batch prompts,
in batch order, whenever every response conforms to the Gateway contract. -/
theorem analyzeCalls_eq_batches (gw : Nat → Option Json) (articles : List Article)
    (bs : Nat) (hgw : ∀ i, isObjOption (gw i) = true) :
    (analyzeArticlesInBatches gw articles bs).1 =
      (batchesOf articles bs).map (fun b => analysisUserPrompt (contentForAnalysis b)) := by
  have hgo := analyzeGo_clean gw articles bs
    (List.range (numBatches articles.length bs)) (fun i _ => hgw i)
  show (analyzeGo gw articles bs (List.range (numBatches articles.length bs))).1 = _
  rw [hgo]
  simp only [batchesOf, List.map_map]
  rfl

/-- The clamp lies between its bounds. -/
theorem clampInt_bounds (v lo hi : Int) (h : lo ≤ hi) :
    lo ≤ clampInt v lo hi ∧ clampInt v lo hi ≤ hi := by
  unfold clampInt
  exact ⟨le_min (le_max_right v lo) h, min_le_right _ _⟩

/-- Every branch of `get_trends` threads the clamped `hours` value. -/
theorem getTrends_hoursBack (args : String → Option Int) (fetch : Int → List Article)
    (gwA : Nat → Option Json) (gwC : Option Json) (ts : String) :
    (getTrends args fetch gwA gwC ts).trace.hoursBack = clampedHours args := by
  simp only [getTrends]
  split
  · rfl
  · split
    · rfl
    · split
      · rfl
      · split <;> rfl

/-- Every branch of `get_trends` threads the clamped `batch_size` value. -/
theorem getTrends_batchSize (args : String → Option Int) (fetch : Int → List Article)
    (gwA : Nat → Option Json) (gwC : Option Json) (ts : String) :
    (getTrends args fetch gwA gwC ts).trace.batchSize = clampedBatch args := by
  simp only [getTrends]
  split
  · rfl
  · split
    · rfl
    · split
      · rfl
      · split <;> rfl

/-- On a non-empty fetch, every branch of `get_trends` operates on
`usedArticles`. -/
theorem getTrends_articlesUsed (args : String → Option Int) (fetch : Int → List Article)
    (gwA : Nat → Option Json) (gwC : Option Json) (ts : String)
    (hne : (fetch (clampedHours args)).isEmpty = false) :
    (getTrends args fetch gwA gwC ts).trace.articlesUsed = usedArticles args fetch := by
  simp only [getTrends, hne, Bool.false_eq_true, if_false]
  split
  · rfl
  · split
    · rfl
    · split <;> rfl

/-- On a non-empty fetch, every branch of `get_trends` records the Batch
Analyzer's issued prompts. -/
theorem getTrends_analyzeCalls (args : String → Option Int) (fetch : Int → List Article)
    (gwA : Nat → Option Json) (gwC : Option Json) (ts : String)
    (hne : (fetch (clampedHours args)).isEmpty = false) :
    (getTrends args fetch gwA gwC ts).trace.analyzeCalls =
      (analyzeArticlesInBatches gwA (usedArticles args fetch) (clampedBatch args).toNat).1 := by
  simp only [getTrends, hne, Bool.false_eq_true, if_false]
  split
  · rfl
  · split
    · rfl
    · split <;> rfl

/-- On an empty fetch, `get_trends` returns the 200 empty-trends success
body. -/
theorem getTrends_emptyFetch (args : String → Option Int) (fetch : Int → List Article)
    (gwA : Nat → Option Json) (gwC : Option Json) (ts : String)
    (hfe : (fetch (clampedHours args)).isEmpty = true) :
    getTrends args fetch gwA gwC ts =
      ⟨200,
       .obj [("success", .bool true), ("message", .str "No recent articles found"),
             ("trends", .arr []), ("articles_analyzed", .num 0), ("timestamp", .str ts)],
       ⟨clampedHours args, clampedBatch args, [], [], 0⟩⟩ := by
  simp [getTrends, hfe]

/-- C4, counterexample: with one fetched article and every gateway call
failing, the Batch Analyzer produces zero preliminary trends and the
Consolidator returns `None`, yet `/trends` answers with HTTP 200,
`success: true` and an empty trends list — not with a non-200 status. -/
theorem claim_C4_counterexample :
    (analyzeArticlesInBatches gwNone (usedArticles argsEmpty fetchOne)
      (clampedBatch argsEmpty).toNat).2 = .ok []
    ∧ (consolidateTrends none []).report = .ok none
    ∧ (getTrends argsEmpty fetchOne gwNone none "T").status = 200
    ∧ bodyGet (getTrends argsEmpty fetchOne gwNone none "T").body "success" =
        some (.bool true)
    ∧ bodyGet (getTrends argsEmpty fetchOne gwNone none "T").body "trends" =
        some (.arr []) :=
  ⟨rfl, rfl, rfl, rfl, rfl⟩

/-- C4 (amended): when the Batch Analyzer yields zero preliminary trends or
the Consolidator returns `None`, the `/trends` boundary does NOT surface a
non-200 status: it returns HTTP 200 with `success: true` and an empty
`trends` list (non-200 responses arise only from the rate limiter and from
exceptions mapped to 500). -/
theorem claim_C4 (args : String → Option Int) (fetch : Int → List Article)
    (gwA : Nat → Option Json) (gwC : Option Json) (ts : String) (prelim : List Json)
    (hA : (analyzeArticlesInBatches gwA (usedArticles args fetch)
        (clampedBatch args).toNat).2 = .ok prelim)
    (hC : (consolidateTrends gwC prelim).report = .ok none) :
    (getTrends args fetch gwA gwC ts).status = 200
    ∧ bodyGet (getTrends args fetch gwA gwC ts).body "success" = some (.bool true)
    ∧ bodyGet (getTrends args fetch gwA gwC ts).body "trends" = some (.arr []) := by
  cases hfe : (fetch (clampedHours args)).isEmpty with
  | true =>
    rw [getTrends_emptyFetch args fetch gwA gwC ts hfe]
    exact ⟨rfl, rfl, rfl⟩
  | false =>
    simp only [getTrends, hfe, Bool.false_eq_true, if_false, hA, hC]
    exact ⟨rfl, rfl, rfl⟩

/-- C4, witness: the amended theorem at the counterexample's concrete
inputs. -/
theorem claim_C4_witness :
    (getTrends argsEmpty fetchOne gwNone none "T").status = 200
    ∧ bodyGet (getTrends argsEmpty fetchOne gwNone none "T").body "success" =
        some (.bool true)
    ∧ bodyGet (getTrends argsEmpty fetchOne gwNone none "T").body "trends" =
        some (.arr []) :=
  claim_C4 argsEmpty fetchOne gwNone none "T" [] rfl rfl

/-- C8, counterexample: a request carrying `hours_back=500` is ignored — the
recognized query parameter is named `hours` — so both `/articles` and
`/trends` run with the default lookback 72, not with the clamp 168 of 500. -/
theorem claim_C8_counterexample :
    (getArticles argsHoursBack fetchOne "T").hoursUsed = 72
    ∧ (getTrends argsHoursBack fetchOne gwNone none "T").trace.hoursBack = 72
    ∧ clampInt 500 1 168 = 168
    ∧ (72 : Int) ≠ 168 :=
  ⟨rfl, rfl, by decide, by decide⟩

/-- C8 (amended): the lookback query parameter is named `hours` (not
`hours_back`); its value (default 72) is clamped into `[1, 168]` and the
`batch_size` value (default 15) into `[10, 20]` before being passed to the
core pipeline, on `/trends` and (for `hours`) on `/articles`; and an empty
fetched article set yields a 200 success response carrying an empty trends
list. -/
theorem claim_C8 (args : String → Option Int) (fetch : Int → List Article)
    (gwA : Nat → Option Json) (gwC : Option Json) (ts : String) :
    (getTrends args fetch gwA gwC ts).trace.hoursBack =
      clampInt ((args "hours").getD 72) 1 168
    ∧ 1 ≤ (getTrends args fetch gwA gwC ts).trace.hoursBack
    ∧ (getTrends args fetch gwA gwC ts).trace.hoursBack ≤ 168
    ∧ (getTrends args fetch gwA gwC ts).trace.batchSize =
      clampInt ((args "batch_size").getD 15) 10 20
    ∧ 10 ≤ (getTrends args fetch gwA gwC ts).trace.batchSize
    ∧ (getTrends args fetch gwA gwC ts).trace.batchSize ≤ 20
    ∧ (getArticles args fetch ts).hoursUsed = clampInt ((args "hours").getD 72) 1 168
    ∧ ((fetch (clampedHours args)).isEmpty = true →
        (getTrends args fetch gwA gwC ts).status = 200
        ∧ bodyGet (getTrends args fetch gwA gwC ts).body "success" = some (.bool true)
        ∧ bodyGet (getTrends args fetch gwA gwC ts).body "trends" = some (.arr [])) := by
  have h1 := getTrends_hoursBack args fetch gwA gwC ts
  have h2 := getTrends_batchSize args fetch gwA gwC ts
  refine ⟨h1, ?_, ?_, h2, ?_, ?_, rfl, ?_⟩
  · rw [h1]; exact (clampInt_bounds _ 1 168 (by decide)).1
  · rw [h1]; exact (clampInt_bounds _ 1 168 (by decide)).2
  · rw [h2]; exact (clampInt_bounds _ 10 20 (by decide)).1
  · rw [h2]; exact (clampInt_bounds _ 10 20 (by decide)).2
  · intro hfe
    rw [getTrends_emptyFetch args fetch gwA gwC ts hfe]
    exact ⟨rfl, rfl, rfl⟩

/-- C8, witness: the amended theorem at the `hours_back=500` request. -/
theorem claim_C8_witness :
    (getTrends argsHoursBack fetchOne gwNone none "T").trace.hoursBack =
      clampInt ((argsHoursBack "hours").getD 72) 1 168 :=
  (claim_C8 argsHoursBack fetchOne gwNone none "T").1

/-- C9: when more than 50 articles pass the lookback filter, the pipeline
operates on exactly the first 50 of them: the batching stage receives the
truncated list (its prompts are the batches of the first 50 articles), and a
200 response reports `articles_analyzed = 50`. -/
theorem claim_C9 (args : String → Option Int) (fetch : Int → List Article)
    (gwA : Nat → Option Json) (gwC : Option Json) (ts : String)
    (h50 : 50 < (fetch (clampedHours args)).length) :
    (getTrends args fetch gwA gwC ts).trace.articlesUsed =
      (fetch (clampedHours args)).take 50
    ∧ (getTrends args fetch gwA gwC ts).trace.articlesUsed.length = 50
    ∧ ((getTrends args fetch gwA gwC ts).status = 200 →
        bodyGet (getTrends args fetch gwA gwC ts).body "articles_analyzed" =
          some (.num 50))
    ∧ ((∀ i, isObjOption (gwA i) = true) →
        (getTrends args fetch gwA gwC ts).trace.analyzeCalls =
          (batchesOf ((fetch (clampedHours args)).take 50) (clampedBatch args).toNat).map
            (fun b => analysisUserPrompt (contentForAnalysis b))) := by
  have hne : (fetch (clampedHours args)).isEmpty = false := by
    cases hfl : fetch (clampedHours args) with
    | nil => rw [hfl] at h50; simp at h50
    | cons a l => rfl
  have hused : usedArticles args fetch = (fetch (clampedHours args)).take 50 := by
    unfold usedArticles
    rw [if_pos h50]
  have htr := getTrends_articlesUsed args fetch gwA gwC ts hne
  have hlen : ((fetch (clampedHours args)).take 50).length = 50 := by
    rw [List.length_take]
    omega
  refine ⟨?_, ?_, ?_, ?_⟩
  · rw [htr, hused]
  · rw [htr, hused, hlen]
  · intro hst
    simp only [getTrends, hne, Bool.false_eq_true, if_false] at hst ⊢
    split at hst
    · simp at hst
    · split at hst
      · simp at hst
      · split at hst
        · simp at hst
        · show some (Json.num ((usedArticles args fetch).length : Int)) = some (.num 50)
          rw [hused, hlen]
          rfl
  · intro hgw
    rw [getTrends_analyzeCalls args fetch gwA gwC ts hne,
      analyzeCalls_eq_batches gwA (usedArticles args fetch) (clampedBatch args).toNat hgw,
      hused]

/-- C9, witness: sixty fetched articles are truncated to the first fifty. -/
theorem claim_C9_witness :
    (getTrends argsEmpty fetchMany gwNone none "T").trace.articlesUsed =
      (fetchMany (clampedHours argsEmpty)).take 50 :=
  (claim_C9 argsEmpty fetchMany gwNone none "T"
    (by simp [fetchMany, manyArticles])).1

end Mojo
